import Mathlib

/-!
Shallow embedding of the sk-pkg/i18n Go library (package i18n).

The embedded functions follow the source file of the repository
(the `Manager` methods `Trans`, `lang`, `result`, `isDebugMode`,
`SetLang`, `Count`, `Lang`, `LangExist`).  Go maps are modelled as
association lists looked up with `List.lookup`; Go `interface{}`
values are modelled by the inductive type `GoAny`; a Go `error` is
modelled as `Option String`, the string being what `fmt.Sprintf`
with the v verb renders for it (`none` is a nil error).  A run-time
panic (the unchecked type assertion in `result`) is modelled by
`Except.error`.
-/

/-- A Go `interface{}` value, as far as the library inspects one:
the library's own `Data` wrapper struct (fields `Params []string`
and `Data interface{}`), strings, or anything else. -/
inductive GoAny where
  | Data : List String → GoAny → GoAny
  | str : String → GoAny
  | null : GoAny
  | other : GoAny
deriving DecidableEq

/-- The `option` configuration struct of the source. -/
structure option where
  langDir : String
  defaultLang : String
  envKey : String
  debugMode : Bool
deriving DecidableEq

/-- The `Manager` struct: `LangList map[string]map[string]string`
(modelled as an association list of association lists, keys unique
for any value a Go map can hold), the configuration, and the run
environment string read from the environment at construction. -/
structure Manager where
  LangList : List (String × List (String × String))
  Option : option
  RunEnv : String
deriving DecidableEq

/-- The `trace` struct of the response envelope. -/
structure trace where
  ID : String
  Desc : String
deriving DecidableEq

/-- The `result` struct: the response envelope
`{code int, msg string, trace, data interface\x7b\x7d}`. -/
structure result where
  Code : Int
  Msg : String
  Trace : trace
  Data : GoAny
deriving DecidableEq

/-- Model of Go `fmt.Sprintf` restricted to what the library feeds
it: a format string and string arguments.  Handles the s verb and
the literal percent escape; a missing argument renders Go's
MISSING token, leftover arguments append Go's EXTRA suffix. -/
def sprintfAux : List Char → List String → String
  | [], [] => ""
  | [], a :: args =>
      "%!(EXTRA " ++ String.intercalate ", " ((a :: args).map (fun s => "string=" ++ s)) ++ ")"
  | '%' :: 's' :: rest, a :: args => a ++ sprintfAux rest args
  | '%' :: 's' :: rest, [] => "%!s(MISSING)" ++ sprintfAux rest []
  | '%' :: '%' :: rest, args => "%" ++ sprintfAux rest args
  | c :: rest, args => c.toString ++ sprintfAux rest args

/-- `fmt.Sprintf(msg, params...)` for string parameters. -/
def sprintf (msg : String) (params : List String) : String :=
  sprintfAux msg.data params

/-- A Go `error` value: `none` is nil, `some s` is a non-nil error
whose `fmt` rendering with the v verb is `s`. -/
abbrev GoErr := Option String

/-- The request-derived inputs the library reads from a `gin.Context`:
the `lang` header, the User-Agent string, the `debug` header, and the
value stored earlier in the context under the `trace_id` key
(`none` when `c.Get` reports the key absent). -/
structure Request where
  langHeader : String
  userAgent : String
  debugHeader : String
  traceID : Option GoAny
deriving DecidableEq

/-- The mapping `Trans` resolves for a language: the catalog entry
for `lang` when present, otherwise the entry for the configured
default language, otherwise (both absent) the empty mapping —
in Go, indexing a nil map. -/
def Manager.resolvedMap (m : Manager) (lang : String) : List (String × String) :=
  match List.lookup lang m.LangList with
  | some l => l
  | none => (List.lookup m.Option.defaultLang m.LangList).getD []

/-- `Trans(lang, code, params...)`: look up the code in the resolved
mapping; when found, format the template with the parameters if any
were given; when not found, return the code itself. -/
def Manager.Trans (m : Manager) (lang : String) (code : String) (params : List String) : String :=
  match List.lookup code (m.resolvedMap lang) with
  | some msg => if params.length > 0 then sprintf msg params else msg
  | none => code

/-- Character-level splitter: the groups of characters between
occurrences of the separator. -/
def splitCharAux (sep : Char) : List Char → List (List Char)
  | [] => [[]]
  | c :: rest =>
      match splitCharAux sep rest with
      | [] => [[]]
      | g :: gs => if c == sep then [] :: g :: gs else (c :: g) :: gs

/-- Model of Go `strings.Split` for a one-character separator (the
library only splits on a semicolon and on an equals sign): the
substrings between occurrences of the separator; the empty string
splits to a single empty piece. -/
def goSplit (s : String) (sep : Char) : List String :=
  (splitCharAux sep s.data).map (fun cs => String.mk cs)

/-- The User-Agent scan of `Manager.lang`: split on semicolons, then
each token on equals signs; the first token with exactly two parts
whose first part is `lang` yields its second part. -/
def findLang : List String → Option String
  | [] => none
  | p :: rest =>
      match goSplit p '=' with
      | [k, v] => if k == "lang" then some v else findLang rest
      | _ => findLang rest

/-- `lang(c)`: the `lang` header when non-empty, else the first
`lang=value` token of the semicolon-delimited User-Agent, else the
configured default language. -/
def Manager.lang (m : Manager) (c : Request) : String :=
  let headerLang := c.langHeader
  if headerLang != "" then headerLang
  else
    match findLang (goSplit c.userAgent ';') with
    | some v => v
    | none => m.Option.defaultLang

/-- `isDebugMode(c)`: false in the `prod` run environment; else true
when the static debug flag is set; else true exactly when the
request's `debug` header is non-empty. -/
def Manager.isDebugMode (m : Manager) (c : Request) : Bool :=
  if m.RunEnv == "prod" then false
  else if m.Option.debugMode then true
  else c.debugHeader != ""

/-- `SetLang(lang)`: replace the configured default language when the
argument is non-empty; otherwise leave the manager unchanged. -/
def Manager.SetLang (m : Manager) (lang : String) : Manager :=
  if lang != "" then { m with Option := { m.Option with defaultLang := lang } } else m

/-- The `traceID.(string)` type assertion performed by `result` on
the value stored under `trace_id`: an absent key leaves the trace ID
empty, a stored string is taken, any other stored value panics. -/
def traceIDString : Option GoAny → Except String String
  | none => Except.ok ""
  | some (GoAny.str s) => Except.ok s
  | some _ => Except.error "interface conversion: interface is not string"

/-- `result(c, code, data, err)`: build the response envelope.  A
`Data` wrapper contributes its inner payload as the envelope data
and its `Params` as template parameters; any other payload is the
envelope data itself with no parameters.  The message is the
translation of the stringified code.  The trace ID comes from the
unchecked type assertion on the `trace_id` context value (a panic is
an `Except.error`); the trace description is the rendered error
exactly when debug mode holds and the error is non-nil. -/
def Manager.result (m : Manager) (c : Request) (code : Int) (data : GoAny)
    (err : GoErr) : Except String result :=
  let p : GoAny × List String :=
    match data with
    | GoAny.Data params inner => (inner, params)
    | d => (d, [])
  let msg := m.Trans (m.lang c) (toString code) p.2
  match traceIDString c.traceID with
  | Except.error e => Except.error e
  | Except.ok tid =>
      Except.ok
        { Code := code
          Msg := msg
          Trace :=
            { ID := tid
              Desc := if m.isDebugMode c && err.isSome then err.getD "" else "" }
          Data := p.1 }

/-- `Count()`: the size of the language map. -/
def Manager.Count (m : Manager) : Nat :=
  m.LangList.length

/-- `Lang()`: the keys of the language map other than the empty
string. -/
def Manager.Lang (m : Manager) : List String :=
  (m.LangList.map Prod.fst).filter (fun lang => lang != "")

/-- `LangExist(lang)`: whether the language map has the key. -/
def Manager.LangExist (m : Manager) (lang : String) : Bool :=
  (List.lookup lang m.LangList).isSome

-- Concrete fixtures used by witnesses and counterexamples.

/-- A manager over the catalog of the repository's test scenario:
English with codes `0` and `1000`. -/
def mgrW : Manager :=
  { LangList := [("en-US", [("0", "ok"), ("1000", "Hello,%s! Your id is:%s")])]
    Option := { langDir := "./lang", defaultLang := "en-US", envKey := "RUN_MODE", debugMode := false }
    RunEnv := "" }

/-- The same manager with the static debug flag set. -/
def mgrDbg : Manager :=
  { mgrW with Option := { mgrW.Option with debugMode := true } }

/-- The debug-flag manager running in the `prod` environment. -/
def mgrProd : Manager :=
  { mgrDbg with RunEnv := "prod" }

/-- A manager whose catalog has an empty-string language key. -/
def mgrEmptyKey : Manager :=
  { mgrW with LangList := [("", [("0", "zero")]), ("en-US", [("0", "ok")])] }

/-- A request with no language or debug signals and no trace id. -/
def reqPlain : Request :=
  { langHeader := "", userAgent := "", debugHeader := "", traceID := none }

/-- A request with a non-empty `debug` header. -/
def reqDbg : Request :=
  { langHeader := "", userAgent := "", debugHeader := "1", traceID := none }

/-- A request whose `trace_id` context value is not a string. -/
def reqBadTrace : Request :=
  { reqPlain with traceID := some GoAny.other }

-- Spec-side definitions for the language-selection claim, written
-- from the claim's words rather than from the source, to be compared
-- with the embedded `Manager.lang`.

/-- Spec-side: whether a token of the client-identification string is
a `lang=value` token — splitting on the equals sign gives exactly a
key `lang` and a value. -/
def isLangToken (t : String) : Bool :=
  match goSplit t '=' with
  | [k, _] => k == "lang"
  | _ => false

/-- Spec-side: the value carried by a `lang=value` token. -/
def langTokenValue (t : String) : String :=
  match goSplit t '=' with
  | [_, v] => v
  | _ => ""

/-- Spec-side three-level language selection, first match wins: the
explicit `lang` header verbatim when non-empty; else the value of the
first `lang=value` token of the semicolon-delimited User-Agent; else
the configured default language. -/
def langSpec (m : Manager) (c : Request) : String :=
  if c.langHeader ≠ "" then c.langHeader
  else
    match (goSplit c.userAgent ';').find? isLangToken with
    | some t => langTokenValue t
    | none => m.Option.defaultLang

-- Helper lemmas

/-- A key outside the key list of an association list looks up to
nothing. -/
theorem lookup_eq_none_of_not_mem_keys {α : Type} {k : String}
    {l : List (String × α)} (h : k ∉ l.map Prod.fst) : List.lookup k l = none := by
  induction l with
  | nil => rfl
  | cons p rest ih =>
      simp only [List.map_cons, List.mem_cons] at h
      push_neg at h
      have hk : (k == p.1) = false := by
        simp only [beq_eq_false_iff_ne, ne_eq]
        exact h.1
      simp [List.lookup, hk, ih h.2]

/-- When the language is not a catalog key, the resolved mapping is
the one resolved for the default language. -/
theorem resolvedMap_absent (m : Manager) {lang : String}
    (h : List.lookup lang m.LangList = none) :
    m.resolvedMap lang = m.resolvedMap m.Option.defaultLang := by
  unfold Manager.resolvedMap
  rw [h]
  cases hd : List.lookup m.Option.defaultLang m.LangList <;> simp

/-- When the code does not look up in the resolved mapping, `Trans`
returns it unchanged. -/
theorem Trans_of_lookup_none (m : Manager) {lang code : String} (params : List String)
    (h : List.lookup code (m.resolvedMap lang) = none) :
    m.Trans lang code params = code := by
  unfold Manager.Trans
  rw [h]

/-- The User-Agent scan returns the value of the first `lang=value`
token found. -/
theorem findLang_eq_find (l : List String) :
    findLang l = (l.find? isLangToken).map langTokenValue := by
  induction l with
  | nil => rfl
  | cons p rest ih =>
      by_cases hp : isLangToken p = true
      · rw [List.find?_cons_of_pos _ hp]
        unfold isLangToken at hp
        unfold findLang langTokenValue
        rcases h : goSplit p '=' with _ | ⟨k, _ | ⟨v, _ | _⟩⟩ <;> rw [h] at hp <;> simp_all
      · rw [List.find?_cons_of_neg _ hp]
        unfold isLangToken at hp
        unfold findLang
        rcases h : goSplit p '=' with _ | ⟨k, _ | ⟨v, _ | _⟩⟩ <;> rw [h] at hp <;> simp_all

/-- Filtering away a present element strictly shortens a list. -/
theorem length_filter_lt_of_mem_not {α : Type} (p : α → Bool) {l : List α} {x : α}
    (hx : x ∈ l) (hpx : p x = false) : (l.filter p).length < l.length := by
  induction l with
  | nil => cases hx
  | cons a rest ih =>
      rcases List.mem_cons.mp hx with rfl | hmem
      · rw [List.filter_cons, hpx]
        exact Nat.lt_succ_of_le (List.length_filter_le p rest)
      · rw [List.filter_cons]
        cases hpa : p a
        · exact Nat.lt_succ_of_lt (ih hmem)
        · exact Nat.succ_lt_succ (ih hmem)

-- Claim theorems

/-- Claim C1: for every manager, language identifier absent from the
catalog's keys, code and parameter list, translating under the absent
language yields the same string as translating under the configured
default language. -/
theorem Trans_absent_lang_eq_default (m : Manager) (lang code : String)
    (params : List String) (h : lang ∉ m.LangList.map Prod.fst) :
    m.Trans lang code params = m.Trans m.Option.defaultLang code params := by
  unfold Manager.Trans
  rw [resolvedMap_absent m (lookup_eq_none_of_not_mem_keys h)]

/-- Witness for C1: `fr-FR` is not in the sample catalog, and
translating code `0` under it matches the default-language result. -/
theorem Trans_absent_lang_eq_default_witness :
    "fr-FR" ∉ mgrW.LangList.map Prod.fst ∧
      mgrW.Trans "fr-FR" "0" [] = mgrW.Trans mgrW.Option.defaultLang "0" [] :=
  ⟨by decide, Trans_absent_lang_eq_default mgrW "fr-FR" "0" [] (by decide)⟩

/-- Claim C2: when the mapping resolved for the language (the catalog
entry for the language if present, else the entry for the configured
default language if present, else the empty mapping — exactly
`Manager.resolvedMap`) has no entry for the code, `Trans` returns the
code unchanged. -/
theorem Trans_code_miss_echoes_code (m : Manager) (lang code : String)
    (params : List String) (h : code ∉ (m.resolvedMap lang).map Prod.fst) :
    m.Trans lang code params = code :=
  Trans_of_lookup_none m params (lookup_eq_none_of_not_mem_keys h)

/-- Witness for C2: code `404` is absent from the resolved mapping of
the sample catalog and is echoed. -/
theorem Trans_code_miss_echoes_code_witness :
    "404" ∉ (mgrW.resolvedMap "en-US").map Prod.fst ∧
      mgrW.Trans "en-US" "404" [] = "404" :=
  ⟨by decide, Trans_code_miss_echoes_code mgrW "en-US" "404" [] (by decide)⟩

/-- Claim C3: in the `prod` run environment `isDebugMode` returns
false for every request, whatever the static debug flag and the
request's `debug` header. -/
theorem isDebugMode_prod_false (m : Manager) (c : Request) (h : m.RunEnv = "prod") :
    m.isDebugMode c = false := by
  unfold Manager.isDebugMode
  rw [h]
  rfl

/-- Witness for C3: the `prod` manager with the static debug flag set
still reports no debug mode on a request with a `debug` header. -/
theorem isDebugMode_prod_false_witness :
    mgrProd.RunEnv = "prod" ∧ mgrProd.isDebugMode reqDbg = false :=
  ⟨rfl, isDebugMode_prod_false mgrProd reqDbg rfl⟩

/-- Counterexample for C5: with an empty code string and no template
for it, `Trans` returns the empty string, so the result is not always
non-empty. -/
theorem Trans_empty_code_empty_result :
    mgrW.Trans "en-US" "" [] = "" := by decide

/-- Claim C5 as amended: when no template is found for the code in
the resolved mapping, `Trans` returns the code itself; in particular
the result is non-empty whenever the code is non-empty. -/
theorem Trans_code_echo_nonempty (m : Manager) (lang code : String)
    (params : List String) (hmiss : code ∉ (m.resolvedMap lang).map Prod.fst)
    (hc : code ≠ "") :
    m.Trans lang code params = code ∧ m.Trans lang code params ≠ "" := by
  have hecho := Trans_of_lookup_none m params (lookup_eq_none_of_not_mem_keys hmiss)
  exact ⟨hecho, by rw [hecho]; exact hc⟩

/-- Witness for C5 as amended: the untranslated code `404` comes back
verbatim and non-empty. -/
theorem Trans_code_echo_nonempty_witness :
    mgrW.Trans "en-US" "404" [] = "404" ∧ mgrW.Trans "en-US" "404" [] ≠ "" :=
  Trans_code_echo_nonempty mgrW "en-US" "404" [] (by decide) (by decide)

/-- Claim C9: `SetLang` with the empty string changes nothing, and
`SetLang` with a non-empty string changes the default language to it
and nothing else. -/
theorem SetLang_empty_noop_frame (m : Manager) :
    m.SetLang "" = m ∧
      ∀ l, l ≠ "" →
        (m.SetLang l).Option.defaultLang = l ∧
        (m.SetLang l).Option.langDir = m.Option.langDir ∧
        (m.SetLang l).Option.envKey = m.Option.envKey ∧
        (m.SetLang l).Option.debugMode = m.Option.debugMode ∧
        (m.SetLang l).LangList = m.LangList ∧
        (m.SetLang l).RunEnv = m.RunEnv := by
  refine ⟨rfl, ?_⟩
  intro l hl
  unfold Manager.SetLang
  simp [hl]

/-- Witness for C9: setting `zh-CN` changes the default language to
it and leaves the catalog intact, and setting the empty string is the
identity. -/
theorem SetLang_empty_noop_frame_witness :
    mgrW.SetLang "" = mgrW ∧
      (mgrW.SetLang "zh-CN").Option.defaultLang = "zh-CN" ∧
      (mgrW.SetLang "zh-CN").LangList = mgrW.LangList :=
  ⟨(SetLang_empty_noop_frame mgrW).1,
   ((SetLang_empty_noop_frame mgrW).2 "zh-CN" (by decide)).1,
   ((SetLang_empty_noop_frame mgrW).2 "zh-CN" (by decide)).2.2.2.2.1⟩

/-- Claim C6: the language selection of `Manager.lang` equals the
spec-side three-level precedence `langSpec`: the explicit `lang`
header verbatim when non-empty, else the value of the first
`lang=value` token of the semicolon-split User-Agent, else the
configured default language. -/
theorem lang_three_level_precedence (m : Manager) (c : Request) :
    m.lang c = langSpec m c := by
  unfold Manager.lang langSpec
  by_cases hh : c.langHeader = ""
  · simp only [hh, bne_self_eq_false, Bool.false_eq_true, if_false, ne_eq,
      not_true_eq_false, findLang_eq_find]
    cases hf : (goSplit c.userAgent ';').find? isLangToken <;> simp
  · simp [hh]

/-- Claim C10: for every manager, `Lang()` holds exactly the
non-empty catalog keys and `Count()` is the number of all catalog
keys; consequently a catalog with the empty-string key makes
`Count()` strictly larger than the length of `Lang()`. -/
theorem Count_Lang_keys (m : Manager) :
    (∀ x, x ∈ m.Lang ↔ x ∈ m.LangList.map Prod.fst ∧ x ≠ "") ∧
      m.Count = (m.LangList.map Prod.fst).length ∧
      ("" ∈ m.LangList.map Prod.fst → m.Lang.length < m.Count) := by
  refine ⟨?_, ?_, ?_⟩
  · intro x
    unfold Manager.Lang
    simp [List.mem_filter]
  · unfold Manager.Count
    simp
  · intro h
    unfold Manager.Lang Manager.Count
    have := length_filter_lt_of_mem_not (fun lang => lang != "") h (by simp)
    simpa using this

/-- Witness for C10: a catalog with keys the empty string and
`en-US` counts two languages but lists only one. -/
theorem Count_Lang_keys_witness :
    mgrEmptyKey.Count = (mgrEmptyKey.LangList.map Prod.fst).length ∧
      mgrEmptyKey.Lang.length < mgrEmptyKey.Count :=
  ⟨(Count_Lang_keys mgrEmptyKey).2.1,
   (Count_Lang_keys mgrEmptyKey).2.2 (by decide)⟩

/-- Counterexample for C4: a non-string value stored under the
`trace_id` key makes `result` hit the unchecked `traceID.(string)`
type assertion and panic instead of returning an envelope. -/
theorem result_nonstring_trace_panics :
    mgrW.result reqBadTrace 200 GoAny.null none =
      Except.error "interface conversion: interface is not string" := rfl

/-- Claim C4 as amended: whenever the value stored under the
`trace_id` key is absent or a string, `result` returns an envelope
for every response code, payload and error. -/
theorem result_total_on_string_trace (m : Manager) (c : Request) (code : Int)
    (data : GoAny) (err : GoErr)
    (h : c.traceID = none ∨ ∃ s, c.traceID = some (GoAny.str s)) :
    ∃ r, m.result c code data err = Except.ok r := by
  unfold Manager.result
  rcases h with h | ⟨s, h⟩ <;> rw [h] <;> simp [traceIDString]

/-- Witness for C4 as amended: a request without a trace id yields an
envelope. -/
theorem result_total_on_string_trace_witness :
    ∃ r, mgrW.result reqPlain 0 GoAny.null none = Except.ok r :=
  result_total_on_string_trace mgrW reqPlain 0 GoAny.null none (Or.inl rfl)

/-- Claim C7: a `Data` wrapper payload contributes its inner `Data`
field as the envelope data and its `Params` as the substitution
arguments of the message translation; every other payload is the
envelope data itself and the translation gets no arguments. -/
theorem result_payload_dispatch (m : Manager) (c : Request) (code : Int) (err : GoErr)
    (tid : String) (htr : traceIDString c.traceID = Except.ok tid) :
    (∀ params inner, m.result c code (GoAny.Data params inner) err =
        Except.ok
          { Code := code
            Msg := m.Trans (m.lang c) (toString code) params
            Trace := { ID := tid,
                       Desc := if m.isDebugMode c && err.isSome then err.getD "" else "" }
            Data := inner }) ∧
      (∀ d : GoAny, (∀ params inner, d ≠ GoAny.Data params inner) →
        m.result c code d err =
          Except.ok
            { Code := code
              Msg := m.Trans (m.lang c) (toString code) []
              Trace := { ID := tid,
                         Desc := if m.isDebugMode c && err.isSome then err.getD "" else "" }
              Data := d }) := by
  constructor
  · intro params inner
    unfold Manager.result
    rw [htr]
  · intro d hd
    unfold Manager.result
    rw [htr]
    cases d with
    | Data ps inner => exact absurd rfl (hd ps inner)
    | str s => rfl
    | null => rfl
    | other => rfl

/-- Witness for C7: the repository's test scenario — code `1000`
with a two-parameter `Data` wrapper renders the greeting template and
echoes the inner payload as data. -/
theorem result_payload_dispatch_witness :
    mgrW.result reqPlain 1000
        (GoAny.Data ["Seakee", "18888888888"] (GoAny.str "test")) none =
      Except.ok
        { Code := 1000
          Msg := "Hello,Seakee! Your id is:18888888888"
          Trace := { ID := "", Desc := "" }
          Data := GoAny.str "test" } :=
  (result_payload_dispatch mgrW reqPlain 1000 none "" rfl).1
    ["Seakee", "18888888888"] (GoAny.str "test")

/-- Claim C8: the error argument never changes the envelope's code or
message; the trace description is the rendered error exactly when
debug mode holds and the error is non-nil, and empty otherwise. -/
theorem result_err_only_affects_trace_desc (m : Manager) (c : Request) (code : Int)
    (data : GoAny) (err err' : GoErr) (tid : String)
    (htr : traceIDString c.traceID = Except.ok tid) :
    (m.result c code data err).map result.Code =
        (m.result c code data err').map result.Code ∧
      (m.result c code data err).map result.Msg =
        (m.result c code data err').map result.Msg ∧
      (m.isDebugMode c = true → ∀ e, err = some e →
        (m.result c code data err).map (fun r => r.Trace.Desc) = Except.ok e) ∧
      ((m.isDebugMode c = false ∨ err = none) →
        (m.result c code data err).map (fun r => r.Trace.Desc) = Except.ok "") := by
  unfold Manager.result
  rw [htr]
  refine ⟨rfl, rfl, ?_, ?_⟩
  · intro hdbg e he
    subst he
    simp only [hdbg, Option.isSome_some, Bool.and_true, if_pos rfl, Option.getD_some]
    rfl
  · intro h
    rcases h with h | h
    · simp only [h, Bool.false_and, if_neg Bool.false_ne_true]
      rfl
    · subst h
      simp only [Option.isSome_none, Bool.and_false, if_neg Bool.false_ne_true]
      rfl

/-- Witness for C8: with the static debug flag on, a non-nil error
is rendered into the trace description. -/
theorem result_err_only_affects_trace_desc_witness :
    (mgrDbg.result reqPlain 0 GoAny.null (some "busy... ")).map
        (fun r => r.Trace.Desc) = Except.ok "busy... " :=
  (result_err_only_affects_trace_desc mgrDbg reqPlain 0 GoAny.null
      (some "busy... ") none "" rfl).2.2.1 rfl "busy... " rfl
